import Mathlib

deriving instance DecidableEq for Except

/-!
Shallow embedding of the core of `cosmic-applet-launch-control`
(files `src/core/launch.rs`, `src/device_listener.rs`, `src/app.rs`).

External capabilities (the `hidapi` HID transport, the `ectool` EC protocol
library, and the `tokio_udev` device-notification source) are modelled as
explicit oracle data: every fallible round-trip against them becomes an
`Except` value supplied as input, and `Instant::now()` becomes an explicit
`Nat` timestamp threaded through each call.  Machine integers (`u8`, `u16`,
`u32`, `i32`) are modelled as `Nat`/`Int`; all arithmetic in the embedded
code stays well inside those ranges.
-/

namespace LaunchControl

/-- The error enum `LaunchError` of `src/core/launch.rs`.  The `EcError` and
`HidError` payloads of the external crates are modelled as strings (they are
only carried, never inspected); `FromUtf8Error` is modelled as the offending
byte list. -/
inductive LaunchError where
  | Ec (msg : String)
  | Hid (msg : String)
  | DeviceNotFound
  | UnicodeError (bytes : List Nat)
  | UnknownLedMode (b : Nat)
deriving DecidableEq, Repr

/-- The closed `LedMode` enum of `src/core/launch.rs` (16 ordinals, 0–15). -/
inductive LedMode where
  | SolidColor
  | PerKey
  | CycleAll
  | CycleLeftRight
  | CycleUpDown
  | CycleOutIn
  | CycleOutInDual
  | RainbowMovingChevron
  | CyclePinwheel
  | CycleSpiral
  | Raindrops
  | Splash
  | Multisplash
  | ActiveKeys
  | Disabled
  | Last
deriving DecidableEq, Repr

/-- The Rust cast `mode as u8`: each `LedMode` to its `repr(u8)` ordinal
(the discriminants are 0,1,…,15 in declaration order).  Total. -/
def LedMode.toU8 : LedMode → Nat
  | .SolidColor => 0
  | .PerKey => 1
  | .CycleAll => 2
  | .CycleLeftRight => 3
  | .CycleUpDown => 4
  | .CycleOutIn => 5
  | .CycleOutInDual => 6
  | .RainbowMovingChevron => 7
  | .CyclePinwheel => 8
  | .CycleSpiral => 9
  | .Raindrops => 10
  | .Splash => 11
  | .Multisplash => 12
  | .ActiveKeys => 13
  | .Disabled => 14
  | .Last => 15

/-- `impl TryFrom<u8> for LedMode` of `src/core/launch.rs`: exact ordinal
match, any other byte is `Err(UnknownLedMode(other))`. -/
def LedMode.tryFrom (value : Nat) : Except LaunchError LedMode :=
  match value with
  | 0 => .ok .SolidColor
  | 1 => .ok .PerKey
  | 2 => .ok .CycleAll
  | 3 => .ok .CycleLeftRight
  | 4 => .ok .CycleUpDown
  | 5 => .ok .CycleOutIn
  | 6 => .ok .CycleOutInDual
  | 7 => .ok .RainbowMovingChevron
  | 8 => .ok .CyclePinwheel
  | 9 => .ok .CycleSpiral
  | 10 => .ok .Raindrops
  | 11 => .ok .Splash
  | 12 => .ok .Multisplash
  | 13 => .ok .ActiveKeys
  | 14 => .ok .Disabled
  | 15 => .ok .Last
  | other => .error (.UnknownLedMode other)

/-! ## Device listener (`src/device_listener.rs`) -/

/-- `struct DeviceInfo` of `src/app.rs` (vendor id and product id parsed from
udev properties, `u32` modelled as `Nat`). -/
structure DeviceInfo where
  vid : Nat
  pid : Nat
deriving DecidableEq, Repr

/-- The device-presence variants of `enum Message` of `src/app.rs` (the only
ones the device listener produces; the UI-only variants `TogglePopup`,
`PopupClosed`, `ToggleExampleRow` are omitted as they never flow through the
listener). `DeviceDisconnected` carries no identity. -/
inductive Message where
  | DeviceConnected (i : DeviceInfo)
  | DeviceDisconnected
deriving DecidableEq, Repr

/-- A udev device, reduced to its property bag (`tokio_udev::Device`;
`property_value` is string lookup, `to_string_lossy` is the identity on our
already-`String` values). -/
structure UdevDevice where
  properties : List (String × String)
deriving DecidableEq, Repr

/-- `dev.property_value(key)`: first binding of `key` in the property bag. -/
def UdevDevice.property_value (dev : UdevDevice) (key : String) : Option String :=
  match dev.properties.find? (fun p => p.1 = key) with
  | some p => some p.2
  | none => none

/-- Value of one hexadecimal digit character (0-9, a-f, A-F), as accepted by
`u32::from_str_radix(_, 16)`. -/
def hexDigitVal (c : Char) : Option Nat :=
  if '0' ≤ c ∧ c ≤ '9' then some (c.toNat - 48)
  else if 'a' ≤ c ∧ c ≤ 'f' then some (c.toNat - 87)
  else if 'A' ≤ c ∧ c ≤ 'F' then some (c.toNat - 55)
  else none

/-- Accumulating hex parse over a character list; fails on the first
non-hex-digit character. -/
def parseHexDigits : List Char → Nat → Option Nat
  | [], acc => some acc
  | c :: cs, acc =>
    match hexDigitVal c with
    | some d => parseHexDigits cs (acc * 16 + d)
    | none => none

/-- `u32::from_str_radix(s, 16)` as used in `extract_info`: an optional
leading `+`, then at least one hex digit, value below `2^32` (Rust reports
intermediate overflow, which for radix 16 is equivalent to the final value
overflowing). -/
def fromStrRadix16 (s : String) : Option Nat :=
  let cs := match s.data with
    | '+' :: rest => rest
    | l => l
  match cs with
  | [] => none
  | _ =>
    match parseHexDigits cs 0 with
    | some n => if n < 2 ^ 32 then some n else none
    | none => none

/-- `fn extract_info` of `src/device_listener.rs`: read the `ID_VENDOR_ID`
and `ID_MODEL_ID` properties, parse both as hex; any missing property or
failed parse yields `None`. -/
def extract_info (dev : UdevDevice) : Option DeviceInfo :=
  match dev.property_value "ID_VENDOR_ID" with
  | none => none
  | some vid =>
    match dev.property_value "ID_MODEL_ID" with
    | none => none
    | some pid =>
      match fromStrRadix16 vid with
      | none => none
      | some v =>
        match fromStrRadix16 pid with
        | none => none
        | some p => some { vid := v, pid := p }

/-- Rust's `format!("{:04x}", n)`: lowercase hex, zero-padded to at least 4
digits, never truncated. -/
def hex4 (n : Nat) : String :=
  let s : List Char := Nat.toDigits 16 n
  ⟨List.replicate (4 - s.length) '0' ++ s⟩

/-- The debounce key `format!("{:04x}:{:04x}", info.vid, info.pid)` of
`should_fire`.  It depends only on the identity, never on the notification
action. -/
def debounceKey (i : DeviceInfo) : String :=
  hex4 i.vid ++ ":" ++ hex4 i.pid

/-- The `HashMap<String, Instant>` debounce ledger, as an association list
with HashMap lookup/insert semantics; `Instant` is a `Nat` timestamp. -/
abbrev Ledger := List (String × Nat)

/-- `HashMap::get`. -/
def hmGet : Ledger → String → Option Nat
  | [], _ => none
  | (k, v) :: rest, key => if k = key then some v else hmGet rest key

/-- `HashMap::insert` (replace the binding if present, else append). -/
def hmInsert : Ledger → String → Nat → Ledger
  | [], key, v => [(key, v)]
  | (k, w) :: rest, key, v =>
    if k = key then (key, v) :: rest else (k, w) :: hmInsert rest key v

/-- `fn should_fire` of `src/device_listener.rs`.  `Instant::now()` is the
explicit `now` argument; `now.duration_since(*prev)` saturates at zero just
like `Nat` subtraction.  Returns the fired flag together with the ledger
after the call (the Rust function mutates `last` in place). -/
def should_fire (last : Ledger) (i : DeviceInfo) (win : Nat) (now : Nat) :
    Bool × Ledger :=
  let key := debounceKey i
  match hmGet last key with
  | some prev =>
    if now - prev < win then (false, last)
    else (true, hmInsert last key now)
  | none => (true, hmInsert last key now)

/-- Number of accepted (fired) calls when `should_fire` is invoked once per
timestamp in the list, threading the ledger; also returns the final ledger.
This is the acceptance count of a burst of notifications for one identity. -/
def fireCount (i : DeviceInfo) (win : Nat) : Ledger → List Nat → Nat × Ledger
  | last, [] => (0, last)
  | last, t :: ts =>
    match should_fire last i win t with
    | (true, l) =>
      let r := fireCount i win l ts
      (r.1 + 1, r.2)
    | (false, l) => fireCount i win l ts

/-- A live udev notification: `evt.event_type().as_str()` and the device. -/
structure Notification where
  action : String
  device : UdevDevice
deriving DecidableEq, Repr

/-- One iteration of the live-monitoring loop of `DeviceListener::run`
(lines 53–68): extract identity (skip if absent), consult the debounce
ledger BEFORE looking at the action, then map `add`/`remove` to a message
(other actions are dropped, though the ledger was already updated). -/
def processNotification (last : Ledger) (win : Nat) (now : Nat)
    (evt : Notification) : Option Message × Ledger :=
  match extract_info evt.device with
  | none => (none, last)
  | some i =>
    match should_fire last i win now with
    | (false, l) => (none, l)
    | (true, l) =>
      match evt.action with
      | "add" => (some (Message.DeviceConnected i), l)
      | "remove" => (some Message.DeviceDisconnected, l)
      | _ => (none, l)

/-- The cold-enumeration loop of `DeviceListener::run` (lines 29–35): each
scanned device carries the `Instant::now()` timestamp of its iteration;
identifiable devices that pass the debounce emit `DeviceConnected`. -/
def coldEnum (win : Nat) : Ledger → List (Nat × UdevDevice) → List Message × Ledger
  | last, [] => ([], last)
  | last, (now, dev) :: rest =>
    match extract_info dev with
    | none => coldEnum win last rest
    | some i =>
      match should_fire last i win now with
      | (true, l) =>
        let r := coldEnum win l rest
        (Message.DeviceConnected i :: r.1, r.2)
      | (false, l) => coldEnum win l rest

/-- The cold-enumeration phase of `DeviceListener::run` (lines 26–38) with
its three fallible udev steps (`Enumerator::new`, `match_subsystem`,
`scan_devices`) as oracles: any failure skips enumeration entirely and
leaves the ledger empty. -/
def coldPhase (win : Nat) (enumNew : Except String Unit)
    (matchSub : Except String Unit)
    (scan : Except String (List (Nat × UdevDevice))) : List Message × Ledger :=
  match enumNew with
  | .error _ => ([], [])
  | .ok _ =>
    match matchSub with
    | .error _ => ([], [])
    | .ok _ =>
      match scan with
      | .error _ => ([], [])
      | .ok devs => coldEnum win [] devs

/-- The live-monitoring loop of `DeviceListener::run` (lines 53–68) over the
whole notification stream, threading the ledger. -/
def liveLoop (win : Nat) : Ledger → List (Nat × Notification) → List Message
  | _, [] => []
  | last, (now, evt) :: rest =>
    match processNotification last win now evt with
    | (some m, l) => m :: liveLoop win l rest
    | (none, l) => liveLoop win l rest

/-- `DeviceListener::run` end to end: the sequence of messages sent on the
output channel.  `monitor` is the result of the chained
`MonitorBuilder::new().and_then(match_subsystem).and_then(listen)`: on error
the function returns after the cold phase (no live events); on success the
stream is the given finite list of timestamped notifications.  The ledger
built during cold enumeration carries into live monitoring. -/
def DeviceListener.run (win : Nat) (enumNew : Except String Unit)
    (matchSub : Except String Unit)
    (scan : Except String (List (Nat × UdevDevice)))
    (monitor : Except String (List (Nat × Notification))) : List Message :=
  let cold := coldPhase win enumNew matchSub scan
  match monitor with
  | .error _ => cold.1
  | .ok evts => cold.1 ++ liveLoop win cold.2 evts

/-- Modelled from the spec: the hotplug Identity Filter (spec §4.1, and the
`DeviceListener::new(0x3384, 0x0001..=0x000A)` construction in
`src/app.rs`).  `src/device_listener.rs` itself defines no such predicate:
vendor id equal to the fixed constant `0x3384` and product id in the fixed
inclusive range `0x0001..=0x000A`. -/
def hotplugFilterMatches (i : DeviceInfo) : Bool :=
  i.vid = 0x3384 && 0x0001 ≤ i.pid && i.pid ≤ 0x000A

/-! ## Control session (`src/core/launch.rs`)

The `hidapi`/`ectool` transport is external (spec §1); each round-trip
against it is an oracle value carried by the candidate device. -/

/-- Is `b` in the continuation-byte range `0x80..=0xBF`. -/
def contByte (b : Nat) : Bool := 0x80 ≤ b && b ≤ 0xBF

/-- UTF-8 validity of a byte sequence, as checked by Rust's
`String::from_utf8` (shortest-form encodings only, surrogates and values
above U+10FFFF rejected). -/
def validUtf8 : List Nat → Bool
  | [] => true
  | b :: rest =>
    if b ≤ 0x7F then validUtf8 rest
    else if 0xC2 ≤ b && b ≤ 0xDF then
      match rest with
      | c1 :: r => contByte c1 && validUtf8 r
      | [] => false
    else if 0xE0 ≤ b && b ≤ 0xEF then
      match rest with
      | c1 :: c2 :: r =>
        (if b = 0xE0 then 0xA0 ≤ c1 && c1 ≤ 0xBF
         else if b = 0xED then 0x80 ≤ c1 && c1 ≤ 0x9F
         else contByte c1) && contByte c2 && validUtf8 r
      | _ => false
    else if 0xF0 ≤ b && b ≤ 0xF4 then
      match rest with
      | c1 :: c2 :: c3 :: r =>
        (if b = 0xF0 then 0x90 ≤ c1 && c1 ≤ 0xBF
         else if b = 0xF4 then 0x80 ≤ c1 && c1 ≤ 0x8F
         else contByte c1) && contByte c2 && contByte c3 && validUtf8 r
      | _ => false
    else false

/-- `String::from_utf8(bytes)`: the bytes themselves when valid UTF-8
(Strings are modelled as their UTF-8 byte lists), otherwise the
`FromUtf8Error`, which `?` converts to `LaunchError::UnicodeError`. -/
def stringFromUtf8 (bytes : List Nat) : Except LaunchError (List Nat) :=
  if validUtf8 bytes then .ok bytes else .error (.UnicodeError bytes)

/-- The EC handle's LED round-trips (`ectool` capability): `led_set_mode
(channel, mode byte, speed)` and `led_get_mode channel` (returning the `.0`
component, the raw mode byte).  Errors are `EcError` payloads. -/
structure EcTransport where
  led_set_mode : Nat → Nat → Nat → Except String Unit
  led_get_mode : Nat → Except String Nat

/-- One entry of `api.device_list()` together with the oracle outcomes of
every fallible call `Launch::try_new` would make against it: `open_device`
(a `HidError` on failure), `AccessHid::new`, `Ec::new`, `ec.board` and
`ec.version` (each returning the post-call scratch-buffer contents and the
valid length; the in-place buffer write of the external library is
abstracted as the full post-call contents), and the EC LED transport. -/
structure CandidateDevice where
  vendor_id : Nat
  product_id : Nat
  interface_number : Int
  open_device : Except String Unit
  access_hid_new : Except String Unit
  ec_new : Except String Unit
  board_reply : Except String (List Nat × Nat)
  version_reply : Except String (List Nat × Nat)
  ec : EcTransport

/-- The match arm pattern `(0x3384, 0x0001..=0x000A, 1)` of
`Launch::try_new` on a `(vendor_id, product_id, interface_number)` triple. -/
def idPattern (vid pid : Nat) (iface : Int) : Bool :=
  vid = 0x3384 && 0x0001 ≤ pid && pid ≤ 0x000A && iface = 1

/-- Whether a device-list entry matches the `Launch::try_new` pattern. -/
def CandidateDevice.matchesId (dev : CandidateDevice) : Bool :=
  idPattern dev.vendor_id dev.product_id dev.interface_number

/-- `struct Launch` of `src/core/launch.rs`: the owned EC handle and the
cached board id, firmware version (UTF-8 byte lists) and current LED mode. -/
structure Launch where
  ec : EcTransport
  board : List Nat
  version : List Nat
  current_mode : LedMode

/-- The matched-candidate body of `Launch::try_new` (lines 120–155): open
the device, build the EC access, then the three protocol round-trips —
board id, firmware version (`data.truncate(size)` is `List.take`, which
also never lengthens), current LED mode — each decoded and each failure
propagated immediately by `?` (with the `From` conversions into
`LaunchError`). -/
def openMatched (dev : CandidateDevice) : Except LaunchError Launch :=
  match dev.open_device with
  | .error e => .error (.Hid e)
  | .ok _ =>
  match dev.access_hid_new with
  | .error e => .error (.Ec e)
  | .ok _ =>
  match dev.ec_new with
  | .error e => .error (.Ec e)
  | .ok _ =>
  match dev.board_reply with
  | .error e => .error (.Ec e)
  | .ok br =>
  match stringFromUtf8 (br.1.take br.2) with
  | .error e => .error e
  | .ok board =>
  match dev.version_reply with
  | .error e => .error (.Ec e)
  | .ok vr =>
  match stringFromUtf8 (vr.1.take vr.2) with
  | .error e => .error e
  | .ok version =>
  match dev.ec.led_get_mode 0 with
  | .error e => .error (.Ec e)
  | .ok mode =>
  match LedMode.tryFrom mode with
  | .error e => .error e
  | .ok current_mode => .ok { ec := dev.ec, board, version, current_mode }

/-- The `for info in api.device_list()` loop of `Launch::try_new`: the first
candidate matching the identity pattern is opened (errors from the matched
branch propagate out of the whole function — the loop does NOT continue to
later devices); if no candidate matches, `Err(DeviceNotFound)`. -/
def tryLoop : List CandidateDevice → Except LaunchError Launch
  | [] => .error .DeviceNotFound
  | dev :: rest => if dev.matchesId then openMatched dev else tryLoop rest

/-- `Launch::try_new`: `HidApi::new()?` (its `HidError` converted by `?`),
then the device-list loop. -/
def Launch.try_new (api : Except String (List CandidateDevice)) :
    Except LaunchError Launch :=
  match api with
  | .error e => .error (.Hid e)
  | .ok devices => tryLoop devices

/-- `Launch::board` — a pure read of the cached field. -/
def Launch.boardAccessor (self : Launch) : List Nat := self.board

/-- `Launch::version` — a pure read of the cached field. -/
def Launch.versionAccessor (self : Launch) : List Nat := self.version

/-- `Launch::current_mode` — a pure read of the cached field. -/
def Launch.currentModeAccessor (self : Launch) : LedMode := self.current_mode

/-- `Launch::set_led_mode` (lines 175–182): send the set-mode command with
the requested ordinal and speed, then unconditionally re-read the mode from
the device and cache the decoded read-back value.  The Rust method mutates
`&mut self`; here the updated session is returned, and an error means the
caller's session is unchanged (in Rust, `?` returns before any field
assignment). -/
def Launch.set_led_mode (self : Launch) (mode : LedMode) (speed : Nat) :
    Except LaunchError Launch :=
  match self.ec.led_set_mode 0 (LedMode.toU8 mode) speed with
  | .error e => .error (.Ec e)
  | .ok _ =>
    match self.ec.led_get_mode 0 with
    | .error e => .error (.Ec e)
    | .ok mode_raw =>
      match LedMode.tryFrom mode_raw with
      | .error e => .error e
      | .ok m => .ok { self with current_mode := m }

/-! ## Helper lemmas -/

/-- Any byte at or above 16 decodes to `UnknownLedMode`. -/
lemma tryFrom_ge16 (b : Nat) (hb : 16 ≤ b) :
    LedMode.tryFrom b = .error (.UnknownLedMode b) := by
  obtain ⟨k, rfl⟩ : ∃ k, b = k + 16 := ⟨b - 16, by omega⟩
  rfl

/-- Lookup after insert at the same key. -/
lemma hmGet_hmInsert_self (m : Ledger) (k : String) (v : Nat) :
    hmGet (hmInsert m k v) k = some v := by
  induction m with
  | nil => simp [hmInsert, hmGet]
  | cons head tail ih =>
    cases head with
    | mk hk hv =>
      by_cases h : hk = k
      · simp [hmInsert, h, hmGet]
      · simp [hmInsert, h, hmGet, ih]

/-- `should_fire` when the key has no record: fire and record `now`. -/
lemma should_fire_of_none {last : Ledger} {i : DeviceInfo} {win now : Nat}
    (h : hmGet last (debounceKey i) = none) :
    should_fire last i win now = (true, hmInsert last (debounceKey i) now) := by
  simp [should_fire, h]

/-- `should_fire` inside the window: suppress and leave the ledger alone. -/
lemma should_fire_of_recent {last : Ledger} {i : DeviceInfo} {win now prev : Nat}
    (h : hmGet last (debounceKey i) = some prev) (hw : now - prev < win) :
    should_fire last i win now = (false, last) := by
  simp [should_fire, h, hw]

/-- `should_fire` at or past the window: fire and record `now`. -/
lemma should_fire_of_stale {last : Ledger} {i : DeviceInfo} {win now prev : Nat}
    (h : hmGet last (debounceKey i) = some prev) (hw : ¬ now - prev < win) :
    should_fire last i win now = (true, hmInsert last (debounceKey i) now) := by
  simp [should_fire, h, hw]

/-- A fired call always records `now` under the identity's key. -/
lemma should_fire_true_inv {last : Ledger} {i : DeviceInfo} {win now : Nat}
    (h : (should_fire last i win now).1 = true) :
    should_fire last i win now = (true, hmInsert last (debounceKey i) now) := by
  rcases hg : hmGet last (debounceKey i) with _ | prev
  · exact should_fire_of_none hg
  · by_cases hw : now - prev < win
    · rw [should_fire_of_recent hg hw] at h
      simp at h
    · exact should_fire_of_stale hg hw

/-- A whole burst inside the window after a recorded acceptance is
suppressed and leaves the ledger untouched. -/
lemma fireCount_suppressed (i : DeviceInfo) (win t0 : Nat) (l : Ledger)
    (hl : hmGet l (debounceKey i) = some t0) :
    ∀ ts : List Nat, (∀ t ∈ ts, t - t0 < win) → fireCount i win l ts = (0, l) := by
  intro ts
  induction ts with
  | nil => intro _; rfl
  | cons t ts ih =>
    intro hts
    have h1 : should_fire l i win t = (false, l) :=
      should_fire_of_recent hl (hts t (by simp))
    simp only [fireCount, h1]
    exact ih (fun u hu => hts u (by simp [hu]))

/-! ## Claim theorems -/

/-- Claim C6: decoding the encoded ordinal of any of the 16 `LedMode` values
yields the same mode back (`LedMode::try_from(mode as u8) == Ok(mode)`);
encoding (`LedMode.toU8`) is a total function with no failure case. -/
theorem ledmode_roundtrip (m : LedMode) :
    LedMode.tryFrom (LedMode.toU8 m) = .ok m := by
  cases m <;> rfl

/-- Claim C5: every raw byte outside `0..=15` fails to decode, with the
error `UnknownLedMode(b)` carrying the offending byte; no out-of-range byte
maps to a default or fallback mode. -/
theorem ledmode_decode_unknown (b : Nat) (hb : 16 ≤ b) :
    LedMode.tryFrom b = .error (.UnknownLedMode b) :=
  tryFrom_ge16 b hb

/-- Witness for C5 at the two bytes named by the spec: `decode(16)` and
`decode(255)` both fail with the unknown-mode error. -/
theorem ledmode_decode_unknown_witness :
    (16 ≤ 16 ∧ LedMode.tryFrom 16 = .error (.UnknownLedMode 16)) ∧
    (16 ≤ 255 ∧ LedMode.tryFrom 255 = .error (.UnknownLedMode 255)) :=
  ⟨⟨by decide, ledmode_decode_unknown 16 (by decide)⟩,
   ⟨by decide, ledmode_decode_unknown 255 (by decide)⟩⟩

/-- Claim C4: `should_fire` fires iff the key has no prior record or the
elapsed time since the last-recorded instant is at least the window; firing
records `now` under the key; suppression leaves the entire ledger (hence
the key's stored timestamp) unchanged; and from a fresh key, a burst whose
later notifications all arrive before `now + win` yields exactly one
accepted event while the stored timestamp stays `now` — so a suppressed
event never postpones future acceptance. -/
theorem should_fire_policy (last : Ledger) (i : DeviceInfo) (win now : Nat) :
    ((should_fire last i win now).1 = true ↔
      hmGet last (debounceKey i) = none ∨
        ∃ prev, hmGet last (debounceKey i) = some prev ∧ win ≤ now - prev) ∧
    ((should_fire last i win now).1 = true →
      (should_fire last i win now).2 = hmInsert last (debounceKey i) now ∧
      hmGet (should_fire last i win now).2 (debounceKey i) = some now) ∧
    ((should_fire last i win now).1 = false →
      (should_fire last i win now).2 = last) ∧
    (0 < win → hmGet last (debounceKey i) = none →
      ∀ ts : List Nat, (∀ t ∈ ts, t < now + win) →
        (fireCount i win last (now :: ts)).1 = 1 ∧
        hmGet (fireCount i win last (now :: ts)).2 (debounceKey i) = some now) := by
  refine ⟨?_, ?_, ?_, ?_⟩
  · rcases hg : hmGet last (debounceKey i) with _ | prev
    · rw [should_fire_of_none hg]
      simp
    · by_cases hw : now - prev < win
      · rw [should_fire_of_recent hg hw]
        simp [hg]
        omega
      · rw [should_fire_of_stale hg hw]
        simp [hg]
        omega
  · intro h
    rw [should_fire_true_inv h]
    exact ⟨rfl, hmGet_hmInsert_self _ _ _⟩
  · intro h
    rcases hg : hmGet last (debounceKey i) with _ | prev
    · rw [should_fire_of_none hg] at h ⊢
      simp at h
    · by_cases hw : now - prev < win
      · rw [should_fire_of_recent hg hw]
      · rw [should_fire_of_stale hg hw] at h
        simp at h
  · intro hwin hnone ts hts
    have h0 := @should_fire_of_none last i win now hnone
    have hget := hmGet_hmInsert_self last (debounceKey i) now
    have hsup := fireCount_suppressed i win now
      (hmInsert last (debounceKey i) now) hget ts
      (fun t ht => by have := hts t ht; omega)
    simp [fireCount, h0, hsup, hget]

/-- Witness for C4: from an empty ledger, the burst at times
10, 20, 30, 100 with window 300 fires exactly once and leaves the stored
timestamp at 10. -/
theorem should_fire_policy_witness :
    (fireCount ⟨0x3384, 0x0001⟩ 300 [] [10, 20, 30, 100]).1 = 1 ∧
    hmGet (fireCount ⟨0x3384, 0x0001⟩ 300 [] [10, 20, 30, 100]).2
      (debounceKey ⟨0x3384, 0x0001⟩) = some 10 :=
  (should_fire_policy [] ⟨0x3384, 0x0001⟩ 300 10).2.2.2 (by decide) (by decide)
    [20, 30, 100] (by decide)

/-- Claim C10: the debounce key is built from the identity alone and the
ledger is consulted before the action string is inspected, so an accepted
"add" (resp. "remove") for an identity suppresses a following "remove"
(resp. "add") for the same identity arriving within the window: the second
notification emits no event and leaves the ledger unchanged. -/
theorem debounce_collapses_opposite_transitions
    (last : Ledger) (win t1 t2 : Nat) (d1 d2 : UdevDevice) (i : DeviceInfo)
    (hx1 : extract_info d1 = some i) (hx2 : extract_info d2 = some i)
    (hfire : (should_fire last i win t1).1 = true)
    (hclose : t2 - t1 < win) :
    (processNotification last win t1 ⟨"add", d1⟩ =
        (some (Message.DeviceConnected i), hmInsert last (debounceKey i) t1) ∧
      processNotification (hmInsert last (debounceKey i) t1) win t2 ⟨"remove", d2⟩ =
        (none, hmInsert last (debounceKey i) t1)) ∧
    (processNotification last win t1 ⟨"remove", d1⟩ =
        (some Message.DeviceDisconnected, hmInsert last (debounceKey i) t1) ∧
      processNotification (hmInsert last (debounceKey i) t1) win t2 ⟨"add", d2⟩ =
        (none, hmInsert last (debounceKey i) t1)) := by
  have h1 := should_fire_true_inv hfire
  have hg : hmGet (hmInsert last (debounceKey i) t1) (debounceKey i) = some t1 :=
    hmGet_hmInsert_self _ _ _
  have h2 : should_fire (hmInsert last (debounceKey i) t1) i win t2 =
      (false, hmInsert last (debounceKey i) t1) :=
    should_fire_of_recent hg hclose
  exact ⟨⟨by simp [processNotification, hx1, h1], by simp [processNotification, hx2, h2]⟩,
         ⟨by simp [processNotification, hx1, h1], by simp [processNotification, hx2, h2]⟩⟩

/-- Witness for C10: a `remove` notification 100 units after an accepted
`add` for the same identity (window 300ms) is suppressed: no event, ledger
unchanged. -/
theorem debounce_collapses_opposite_transitions_witness :
    processNotification [] 300 0
        ⟨"add", ⟨[("ID_VENDOR_ID", "3384"), ("ID_MODEL_ID", "0001")]⟩⟩ =
      (some (Message.DeviceConnected ⟨0x3384, 0x0001⟩),
        hmInsert [] (debounceKey ⟨0x3384, 0x0001⟩) 0) ∧
    processNotification (hmInsert [] (debounceKey ⟨0x3384, 0x0001⟩) 0) 300 100
        ⟨"remove", ⟨[("ID_VENDOR_ID", "3384"), ("ID_MODEL_ID", "0001")]⟩⟩ =
      (none, hmInsert [] (debounceKey ⟨0x3384, 0x0001⟩) 0) :=
  (debounce_collapses_opposite_transitions [] 300 0 100
    ⟨[("ID_VENDOR_ID", "3384"), ("ID_MODEL_ID", "0001")]⟩
    ⟨[("ID_VENDOR_ID", "3384"), ("ID_MODEL_ID", "0001")]⟩
    ⟨0x3384, 0x0001⟩ (by decide) (by decide) (by decide) (by decide)).1

/-- A udev device whose identity (vendor `0x1234`, product `0x5678`) does
NOT match the Identity Filter of the spec. -/
def strayDevice : UdevDevice :=
  ⟨[("ID_VENDOR_ID", "1234"), ("ID_MODEL_ID", "5678")]⟩

/-- Claim C1 fails on the code: `DeviceListener::run` applies no Identity
Filter at all.  A single live `add` notification from a device whose
identity does not match the filter (vendor `0x1234` ≠ `0x3384`) still
produces a `DeviceConnected` presence event. -/
theorem run_emits_for_unmatched_identity :
    hotplugFilterMatches ⟨0x1234, 0x5678⟩ = false ∧
    DeviceListener.run 300 (.ok ()) (.ok ()) (.ok [])
        (.ok [(0, ⟨"add", strayDevice⟩)]) =
      [Message.DeviceConnected ⟨0x1234, 0x5678⟩] := by
  exact ⟨by decide, by decide⟩

/-- Claim C8: a failure of any cold-enumeration step (`Enumerator::new`,
`match_subsystem`, `scan_devices`) makes `run` behave exactly as if the
scan had returned no pre-existing devices — live monitoring still proceeds
— while a failure to establish the monitor subscription ends the emitted
sequence right after the cold phase, with no live events. -/
theorem run_cold_enum_nonfatal_subscription_fatal (win : Nat) (e : String)
    (matchSub : Except String Unit)
    (scan : Except String (List (Nat × UdevDevice)))
    (monitor : Except String (List (Nat × Notification))) :
    (DeviceListener.run win (.error e) matchSub scan monitor =
      DeviceListener.run win (.ok ()) (.ok ()) (.ok []) monitor) ∧
    (DeviceListener.run win (.ok ()) (.error e) scan monitor =
      DeviceListener.run win (.ok ()) (.ok ()) (.ok []) monitor) ∧
    (DeviceListener.run win (.ok ()) (.ok ()) (.error e) monitor =
      DeviceListener.run win (.ok ()) (.ok ()) (.ok []) monitor) ∧
    (∀ enumNew matchSub2,
      DeviceListener.run win enumNew matchSub2 scan (.error e) =
        (coldPhase win enumNew matchSub2 scan).1) :=
  ⟨rfl, rfl, rfl, fun _ _ => rfl⟩

/-- `LedMode.tryFrom` either succeeds or fails with exactly
`UnknownLedMode` on its input byte. -/
lemma tryFrom_shape (v : Nat) :
    (∃ m, LedMode.tryFrom v = .ok m) ∨
      LedMode.tryFrom v = .error (.UnknownLedMode v) := by
  by_cases h : v ≤ 15
  · interval_cases v <;> exact .inl ⟨_, rfl⟩
  · exact .inr (tryFrom_ge16 v (by omega))

/-- A `LedMode.tryFrom` failure is always `UnknownLedMode` on the input. -/
lemma tryFrom_error_shape {v : Nat} {e : LaunchError}
    (h : LedMode.tryFrom v = .error e) : e = .UnknownLedMode v := by
  rcases tryFrom_shape v with ⟨m, hm⟩ | hm
  · rw [hm] at h; cases h
  · rw [hm] at h
    exact (Except.error.inj h).symm

/-- A `stringFromUtf8` failure is always `UnicodeError` on the input. -/
lemma stringFromUtf8_error_shape {bytes : List Nat} {e : LaunchError}
    (h : stringFromUtf8 bytes = .error e) : e = .UnicodeError bytes := by
  unfold stringFromUtf8 at h
  split at h
  · cases h
  · exact (Except.error.inj h).symm

/-- The matched-candidate open path can fail with transport, EC, Unicode or
unknown-mode errors, but never with `DeviceNotFound`. -/
lemma openMatched_ne_dnf (dev : CandidateDevice) :
    openMatched dev ≠ .error .DeviceNotFound := by
  unfold openMatched
  cases h1 : dev.open_device with
  | error e => simp
  | ok u1 =>
  cases h2 : dev.access_hid_new with
  | error e => simp
  | ok u2 =>
  cases h3 : dev.ec_new with
  | error e => simp
  | ok u3 =>
  cases h4 : dev.board_reply with
  | error e => simp
  | ok br =>
  cases h5 : stringFromUtf8 (br.1.take br.2) with
  | error e => have hs := stringFromUtf8_error_shape h5; subst hs; simp [h5]
  | ok board =>
  cases h6 : dev.version_reply with
  | error e => simp [h5]
  | ok vr =>
  cases h7 : stringFromUtf8 (vr.1.take vr.2) with
  | error e => have hs := stringFromUtf8_error_shape h7; subst hs; simp [h5, h7]
  | ok version =>
  cases h8 : dev.ec.led_get_mode 0 with
  | error e => simp [h5, h7]
  | ok raw =>
  cases h9 : LedMode.tryFrom raw with
  | error e => have hs := tryFrom_error_shape h9; subst hs; simp [h5, h7, h9]
  | ok m => simp [h5, h7, h9]

/-- Claim C7: `Launch::try_new` returns `DeviceNotFound` — never produced
by a matched candidate's open path — exactly when no enumerated device
matches the pattern (vendor `0x3384`, product id in `0x0001..=0x000A`,
interface 1); and at the range boundary, product ids `0x0000` and `0x000B`
do not match while `0x0001` and `0x000A` do. -/
theorem try_new_not_found_iff (devices : List CandidateDevice) :
    (Launch.try_new (.ok devices) = .error .DeviceNotFound ↔
      ∀ dev ∈ devices, dev.matchesId = false) ∧
    (idPattern 0x3384 0x0000 1 = false ∧ idPattern 0x3384 0x000B 1 = false ∧
      idPattern 0x3384 0x0001 1 = true ∧ idPattern 0x3384 0x000A 1 = true) := by
  refine ⟨?_, by decide⟩
  show tryLoop devices = .error .DeviceNotFound ↔ _
  induction devices with
  | nil => simp [tryLoop]
  | cons dev rest ih =>
    by_cases h : dev.matchesId = true
    · simp [tryLoop, h, openMatched_ne_dnf dev]
    · rw [Bool.not_eq_true] at h
      simp [tryLoop, h, ih]

/-- A candidate whose vendor id (`0x1234`) does not match the pattern. -/
def strayCandidate : CandidateDevice where
  vendor_id := 0x1234
  product_id := 0x0001
  interface_number := 1
  open_device := .ok ()
  access_hid_new := .ok ()
  ec_new := .ok ()
  board_reply := .ok ([], 0)
  version_reply := .ok ([], 0)
  ec := ⟨fun _ _ _ => .ok (), fun _ => .ok 0⟩

/-- Witness for C7: a device list holding one non-matching candidate
(vendor `0x1234`) makes `try_new` fail with `DeviceNotFound`. -/
theorem try_new_not_found_iff_witness :
    Launch.try_new (.ok [strayCandidate]) = .error .DeviceNotFound :=
  (try_new_not_found_iff [strayCandidate]).1.mpr (by decide)

/-- Claim C2: once a candidate matches and the handle opens, the open is
all-or-nothing.  `try_new` on a list headed by the matching candidate runs
exactly its open path (later devices are never consulted); each of the
three round-trips (board id, firmware version, current mode) or its
decoding failing makes the whole open fail with that first error; and a
session comes back only when board, version and mode all succeeded, with
the cached mode being the decoded read-back byte. -/
theorem try_new_all_or_nothing (dev : CandidateDevice)
    (rest : List CandidateDevice)
    (hmatch : dev.matchesId = true)
    (hopen : dev.open_device = .ok ())
    (hacc : dev.access_hid_new = .ok ())
    (hec : dev.ec_new = .ok ()) :
    Launch.try_new (.ok (dev :: rest)) = openMatched dev ∧
    (∀ e, dev.board_reply = .error e → openMatched dev = .error (.Ec e)) ∧
    (∀ br, dev.board_reply = .ok br → validUtf8 (br.1.take br.2) = false →
      openMatched dev = .error (.UnicodeError (br.1.take br.2))) ∧
    (∀ br, dev.board_reply = .ok br → validUtf8 (br.1.take br.2) = true →
      (∀ e, dev.version_reply = .error e → openMatched dev = .error (.Ec e)) ∧
      (∀ vr, dev.version_reply = .ok vr → validUtf8 (vr.1.take vr.2) = false →
        openMatched dev = .error (.UnicodeError (vr.1.take vr.2))) ∧
      (∀ vr, dev.version_reply = .ok vr → validUtf8 (vr.1.take vr.2) = true →
        (∀ e, dev.ec.led_get_mode 0 = .error e →
          openMatched dev = .error (.Ec e)) ∧
        (∀ raw, dev.ec.led_get_mode 0 = .ok raw →
          LedMode.tryFrom raw = .error (.UnknownLedMode raw) →
          openMatched dev = .error (.UnknownLedMode raw)) ∧
        (∀ raw m, dev.ec.led_get_mode 0 = .ok raw →
          LedMode.tryFrom raw = .ok m →
          openMatched dev = .ok ⟨dev.ec, br.1.take br.2, vr.1.take vr.2, m⟩))) ∧
    (∀ s, openMatched dev = .ok s →
      (∃ br, dev.board_reply = .ok br) ∧
      (∃ vr, dev.version_reply = .ok vr) ∧
      (∃ raw, dev.ec.led_get_mode 0 = .ok raw ∧
        LedMode.tryFrom raw = .ok s.current_mode)) := by
  refine ⟨by simp [Launch.try_new, tryLoop, hmatch], ?_, ?_, ?_, ?_⟩
  · intro e he
    simp [openMatched, hopen, hacc, hec, he]
  · intro br hbr hval
    simp [openMatched, hopen, hacc, hec, hbr, stringFromUtf8, hval]
  · intro br hbr hval
    refine ⟨?_, ?_, ?_⟩
    · intro e he
      simp [openMatched, hopen, hacc, hec, hbr, stringFromUtf8, hval, he]
    · intro vr hvr hval2
      simp [openMatched, hopen, hacc, hec, hbr, stringFromUtf8, hval, hvr, hval2]
    · intro vr hvr hval2
      refine ⟨?_, ?_, ?_⟩
      · intro e he
        simp [openMatched, hopen, hacc, hec, hbr, stringFromUtf8, hval, hvr,
          hval2, he]
      · intro raw hraw hdec
        simp [openMatched, hopen, hacc, hec, hbr, stringFromUtf8, hval, hvr,
          hval2, hraw, hdec]
      · intro raw m hraw hdec
        simp [openMatched, hopen, hacc, hec, hbr, stringFromUtf8, hval, hvr,
          hval2, hraw, hdec]
  · intro s hs
    unfold openMatched at hs
    simp only [hopen, hacc, hec] at hs
    cases h4 : dev.board_reply with
    | error e => simp [h4] at hs
    | ok br =>
    simp only [h4] at hs
    cases h5 : stringFromUtf8 (br.1.take br.2) with
    | error e => simp [h5] at hs
    | ok board =>
    simp only [h5] at hs
    cases h6 : dev.version_reply with
    | error e => simp [h6] at hs
    | ok vr =>
    simp only [h6] at hs
    cases h7 : stringFromUtf8 (vr.1.take vr.2) with
    | error e => simp [h7] at hs
    | ok version =>
    simp only [h7] at hs
    cases h8 : dev.ec.led_get_mode 0 with
    | error e => simp [h8] at hs
    | ok raw =>
    simp only [h8] at hs
    cases h9 : LedMode.tryFrom raw with
    | error e => simp [h9] at hs
    | ok m =>
    simp only [h9] at hs
    injection hs with h
    refine ⟨⟨br, rfl⟩, ⟨vr, rfl⟩, raw, rfl, ?_⟩
    rw [← h]
    exact h9

/-- The matching candidate of the spec's all-or-nothing test: the 2nd of
the 3 open-time round-trips (the firmware-version read) fails. -/
def failingVersionDev : CandidateDevice where
  vendor_id := 0x3384
  product_id := 0x0001
  interface_number := 1
  open_device := .ok ()
  access_hid_new := .ok ()
  ec_new := .ok ()
  board_reply := .ok ([0x6C, 0x61, 0x75, 0x6E, 0x63, 0x68], 6)
  version_reply := .error "version round-trip failed"
  ec := ⟨fun _ _ _ => .ok (), fun _ => .ok 0⟩

/-- Witness for C2: with the version round-trip failing, `try_new` returns
that specific error and no session. -/
theorem try_new_all_or_nothing_witness :
    Launch.try_new (.ok [failingVersionDev]) =
      .error (.Ec "version round-trip failed") := by
  have h := try_new_all_or_nothing failingVersionDev []
    (by decide) rfl rfl rfl
  exact h.1.trans
    ((h.2.2.2.1 ([0x6C, 0x61, 0x75, 0x6E, 0x63, 0x68], 6) rfl (by decide)).1
      "version round-trip failed" rfl)

/-- Claim C3: when `set_led_mode(X, speed)` succeeds, the cached
`current_mode` is the decoded value read back by the get-mode round-trip
that follows the set — whatever that value is, not the requested `X`. -/
theorem set_led_mode_reflects_readback (s : Launch) (X : LedMode)
    (speed raw : Nat) (m : LedMode)
    (hset : s.ec.led_set_mode 0 (LedMode.toU8 X) speed = .ok ())
    (hget : s.ec.led_get_mode 0 = .ok raw)
    (hdec : LedMode.tryFrom raw = .ok m) :
    s.set_led_mode X speed = .ok { s with current_mode := m } ∧
    ∀ s', s.set_led_mode X speed = .ok s' → s'.current_mode = m := by
  have h1 : s.set_led_mode X speed = .ok { s with current_mode := m } := by
    simp [Launch.set_led_mode, hset, hget, hdec]
  refine ⟨h1, fun s' hs' => ?_⟩
  rw [h1] at hs'
  injection hs' with h
  rw [← h]

/-- A transport whose get-mode read-back reports ordinal 2 (`CycleAll`)
regardless of what was requested. -/
def readbackSession : Launch :=
  ⟨⟨fun _ _ _ => .ok (), fun _ => .ok 2⟩, [], [], .SolidColor⟩

/-- Witness for C3: requesting `SolidColor` while the device reports back
`CycleAll` caches `CycleAll`, not the requested mode. -/
theorem set_led_mode_reflects_readback_witness :
    readbackSession.set_led_mode .SolidColor 128 =
      .ok { readbackSession with current_mode := LedMode.CycleAll } ∧
    LedMode.CycleAll ≠ LedMode.SolidColor :=
  ⟨(set_led_mode_reflects_readback readbackSession .SolidColor 128 2
      .CycleAll rfl rfl rfl).1, by decide⟩

/-- Claim C9: `board` and `version` (and the owned handle) are never
modified after open — a successful `set_led_mode` changes only the cached
mode (a failed one returns an error without producing any session at all) —
and the three accessors are pure reads of the cached fields, consulting no
device transport. -/
theorem session_board_version_immutable (s : Launch) (X : LedMode)
    (speed : Nat) :
    (∀ s', s.set_led_mode X speed = .ok s' →
      s'.board = s.board ∧ s'.version = s.version ∧ s'.ec = s.ec) ∧
    s.boardAccessor = s.board ∧ s.versionAccessor = s.version ∧
    s.currentModeAccessor = s.current_mode := by
  refine ⟨fun s' hs' => ?_, rfl, rfl, rfl⟩
  unfold Launch.set_led_mode at hs'
  cases h1 : s.ec.led_set_mode 0 (LedMode.toU8 X) speed with
  | error e => simp [h1] at hs'
  | ok u =>
  simp only [h1] at hs'
  cases h2 : s.ec.led_get_mode 0 with
  | error e => simp [h2] at hs'
  | ok raw =>
  simp only [h2] at hs'
  cases h3 : LedMode.tryFrom raw with
  | error e => simp [h3] at hs'
  | ok m =>
  simp only [h3] at hs'
  injection hs' with h
  rw [← h]
  exact ⟨rfl, rfl, rfl⟩

/-- A session whose transport read-back reports ordinal 5 (`CycleOutIn`). -/
def frameSession : Launch :=
  ⟨⟨fun _ _ _ => .ok (), fun _ => .ok 5⟩, [0x61], [0x62], .PerKey⟩

/-- Witness for C9: after a successful `set_led_mode` the resulting session
keeps the open-time `board`, `version` and handle. -/
theorem session_board_version_immutable_witness :
    ({ frameSession with current_mode := LedMode.CycleOutIn } : Launch).board
        = frameSession.board ∧
    ({ frameSession with current_mode := LedMode.CycleOutIn } : Launch).version
        = frameSession.version ∧
    ({ frameSession with current_mode := LedMode.CycleOutIn } : Launch).ec
        = frameSession.ec :=
  (session_board_version_immutable frameSession .SolidColor 9).1
    { frameSession with current_mode := LedMode.CycleOutIn } rfl

end LaunchControl
